import Mathlib

/-!
# Verification of the MCP session service and chat orchestration loop

Shallow embedding of the repository's core:

* the Express session-registry handlers (`/connect`, `/disconnect`, `/chat`)
  from the backend server file;
* the streaming chat orchestration loop of `MCPClient.chat`
  (`src/mcp/src/client.ts`), with the language-model capability modelled as a
  pure function from the transcript to the list of stream parts it produces,
  and the tool-execution gateway modelled as a function from a tool call to an
  `Except`-outcome;
* the non-streaming `MCPClient.chat` variant (the `generateText`-based file),
  with `generateText` modelled as a capability returning an optional response.

External I/O (process spawn, stdio transport, the actual LLM) appears only as
capability parameters: a `Bool` for whether `MCPClient.start` succeeds, a
`Bool` for whether `client.cleanup` succeeds, and pure functions for model
responses and tool calls.  JavaScript `Map` state is embedded as an
association list with unique keys maintained by the operations used.
-/

namespace MCPService

/-- A tool-call request part, as produced by the model stream
(`ToolCallPart` of the `ai` package as used by the code: id, tool name and an
opaque arguments payload, here kept as its JSON string). -/
structure ToolCallPart where
  toolCallId : String
  toolName : String
  args : String
deriving DecidableEq, Repr

/-- A tool-result part as assembled by `MCPClient.chat`
(`client.ts` lines 183-189): originating call id, tool name, result payload
(opaque, kept as a string) and the error flag. -/
structure ToolResultPart where
  toolCallId : String
  toolName : String
  result : String
  isError : Bool
deriving DecidableEq, Repr

/-- One content item of an assistant turn (`client.ts` line 114):
a text segment or a tool-call request. -/
inductive AssistantContent where
  | text (t : String)
  | toolCall (c : ToolCallPart)
deriving DecidableEq, Repr

/-- A transcript turn (`CoreMessage` as used by the loop): user text,
assistant content list, or a tool-result turn. -/
inductive Message where
  | user (content : String)
  | assistant (content : List AssistantContent)
  | tool (content : List ToolResultPart)
deriving DecidableEq, Repr

/-! ## Session registry (backend server file)

The server keeps `activeConnections : Map<string, ActiveConnection>` with
`MAX_CONNECTIONS = 10`.  An `ActiveConnection` holds the chosen `serverId`,
the `MCPClient` object (modelled by a numeric identity `clientId`, so that
"the underlying connection was not re-created" is expressible) and
`lastActivityTimestamp`. -/

/-- The server's `ActiveConnection` record (serverId, client, timestamp);
the `MCPClient` object is represented by its identity `clientId`. -/
structure ActiveConnection where
  serverId : String
  clientId : Nat
  lastActivityTimestamp : Nat
deriving DecidableEq, Repr

/-- The in-memory session map, keyed by session id. -/
abbrev Registry := List (String × ActiveConnection)

/-- The server's `MAX_CONNECTIONS` constant. -/
def MAX_CONNECTIONS : Nat := 10

/-- The server's `IDLE_TIMEOUT_MS` constant (declared, not wired to a sweep). -/
def IDLE_TIMEOUT_MS : Nat := 10 * 60 * 1000

/-- Models `activeConnections.get(k)`. -/
def rGet (r : Registry) (k : String) : Option ActiveConnection :=
  r.lookup k

/-- Models `activeConnections.has(k)`. -/
def rHas (r : Registry) (k : String) : Bool :=
  (rGet r k).isSome

/-- Models `activeConnections.size`. -/
def rSize (r : Registry) : Nat :=
  r.length

/-- Models `activeConnections.set(k, v)` (replace in place if present, else
append, matching JS `Map.set`). -/
def rSet (r : Registry) (k : String) (v : ActiveConnection) : Registry :=
  if rHas r k then r.map (fun p => if p.1 = k then (k, v) else p)
  else r ++ [(k, v)]

/-- Models `activeConnections.delete(k)`. -/
def rDelete (r : Registry) (k : String) : Registry :=
  r.filter (fun p => p.1 != k)

/-- The fixed backend catalog `AVAILABLE_MCP_SERVERS` (its keys). -/
def AVAILABLE_MCP_SERVERS : List String := ["github", "supabase"]

/-- Response outcomes of the `POST /connect` handler, one per `res.status`
exit point of the handler. -/
inductive ConnectResult where
  /-- HTTP 400, missing/invalid sessionId or serverId. -/
  | badRequest
  /-- HTTP 200 "Already connected" (the early `has` check, lines 95-101). -/
  | alreadyConnected
  /-- HTTP 503, connection limit reached. -/
  | capacity
  /-- HTTP 500, AI model not initialized. -/
  | aiNotConfigured
  /-- HTTP 200 "Already connected to ..." (same-server branch of the
  `existingConnection` block, lines 121-125). -/
  | alreadyConnectedSame
  /-- HTTP 200 "Connection successful". -/
  | success
  /-- HTTP 500 "Failed to establish connection". -/
  | failed
deriving DecidableEq, Repr

/-- Result of one `/connect` request: HTTP outcome, the registry afterwards,
and the client identities on which `cleanup()` was invoked during the call. -/
structure ConnectOutcome where
  result : ConnectResult
  registry : Registry
  cleanedUp : List Nat
deriving DecidableEq, Repr

/-- Tail of the `/connect` handler from `new MCPClient(...)` onwards:
start the client; on success register the session with a fresh timestamp,
on failure delete the key and answer 500. -/
def connectStart (startOk : Bool) (newClientId : Nat) (now : Nat)
    (registry : Registry) (sid srv : String) (cleaned : List Nat) :
    ConnectOutcome :=
  if startOk then
    ⟨.success, rSet registry sid ⟨srv, newClientId, now⟩, cleaned⟩
  else
    ⟨.failed, rDelete registry sid, cleaned⟩

/-- The `POST /connect` handler.  Inputs beyond the request
(`sessionId`, `serverId`, both `Option` to model absent/non-string bodies,
with `""` additionally falsy): whether the AI model initialized
(`aiModelOk`), whether `mcpClient.start()` succeeds (`startOk`), whether the
old client's `cleanup()` succeeds (`oldCleanupOk`, caught and logged either
way), the identity of the freshly constructed `MCPClient` (`newClientId`)
and `Date.now()` (`now`).

Control flow follows the source order: sessionId validity, serverId
validity, the `activeConnections.has(sessionId)` early return, the
capacity check, the AI-model check, the `existingConnection` block
(same-server refresh / different-server teardown), then start-and-register. -/
def connectHandler (aiModelOk startOk oldCleanupOk : Bool)
    (newClientId now : Nat) (registry : Registry)
    (sessionId serverId : Option String) : ConnectOutcome :=
  match sessionId with
  | none => ⟨.badRequest, registry, []⟩
  | some sid =>
    if sid = "" then ⟨.badRequest, registry, []⟩
    else match serverId with
    | none => ⟨.badRequest, registry, []⟩
    | some srv =>
      if srv = "" ∨ ¬ AVAILABLE_MCP_SERVERS.contains srv then
        ⟨.badRequest, registry, []⟩
      else if rHas registry sid then
        ⟨.alreadyConnected, registry, []⟩
      else if MAX_CONNECTIONS ≤ rSize registry then
        ⟨.capacity, registry, []⟩
      else if ¬ aiModelOk then
        ⟨.aiNotConfigured, registry, []⟩
      else
        match rGet registry sid with
        | some conn =>
          if conn.serverId = srv then
            -- "Refreshing timestamp." is only logged here; no field is written.
            ⟨.alreadyConnectedSame, registry, []⟩
          else
            -- best-effort cleanup: `oldCleanupOk` does not affect control flow
            let _ := oldCleanupOk
            connectStart startOk newClientId now (rDelete registry sid) sid srv
              [conn.clientId]
        | none =>
          connectStart startOk newClientId now registry sid srv []

/-- Response outcomes of the `POST /disconnect` handler. -/
inductive DisconnectResult where
  /-- HTTP 400, missing/invalid sessionId. -/
  | badRequest
  /-- HTTP 200 "Session not found or already disconnected". -/
  | notFoundOk
  /-- HTTP 200 "Disconnection successful". -/
  | ok
  /-- HTTP 500 "Error during disconnection cleanup". -/
  | cleanupError
deriving DecidableEq, Repr

/-- Result of one `/disconnect` request: HTTP outcome, registry afterwards,
and the client identities on which `cleanup()` was invoked. -/
structure DisconnectOutcome where
  result : DisconnectResult
  registry : Registry
  cleanedUp : List Nat
deriving DecidableEq, Repr

/-- The `POST /disconnect` handler.  `cleanupOk` models whether
`connectionData.client.cleanup()` resolves or throws; the `finally` block
deletes the key from the map in both cases. -/
def disconnectHandler (cleanupOk : Bool) (registry : Registry)
    (sessionId : Option String) : DisconnectOutcome :=
  match sessionId with
  | none => ⟨.badRequest, registry, []⟩
  | some sid =>
    if sid = "" then ⟨.badRequest, registry, []⟩
    else match rGet registry sid with
    | none => ⟨.notFoundOk, registry, []⟩
    | some conn =>
      if cleanupOk then ⟨.ok, rDelete registry sid, [conn.clientId]⟩
      else ⟨.cleanupError, rDelete registry sid, [conn.clientId]⟩

/-- Response outcomes of the `POST /chat` handler. -/
inductive ChatHandlerResult where
  /-- HTTP 500, AI model not initialized. -/
  | aiNotConfigured
  /-- HTTP 400, missing/invalid messages array. -/
  | badMessages
  /-- HTTP 200 with the response of `MCPClient.directChat` (no session). -/
  | directOk (r : String)
  /-- HTTP 500 from the direct-chat `catch` block. -/
  | directError (e : String)
  /-- HTTP 200 with the response of `connectionData.client.chat`. -/
  | sessionOk (r : String)
  /-- HTTP 500 from the session-chat `catch` block. -/
  | sessionError (e : String)
deriving DecidableEq, Repr

/-- Direct-chat branch of the `/chat` handler: call
`MCPClient.directChat` and answer 200 with its response, or 500 if the call
throws. -/
def directChatPath (direct : List Message → Except String String)
    (registry : Registry) (ms : List Message) : ChatHandlerResult × Registry :=
  match direct ms with
  | Except.ok r => (.directOk r, registry)
  | Except.error e => (.directError e, registry)

/-- The `POST /chat` handler.  Capabilities: `direct` models the stateless
`MCPClient.directChat` call, `sessionChat` models `connectionData.client.chat`
for the client with the given identity; both as `Except` (error = thrown).
When a session is found its `lastActivityTimestamp` is set to `now` before
chatting.  A missing or unknown `sessionId` takes the direct path. -/
def chatHandler (aiModelOk : Bool)
    (direct : List Message → Except String String)
    (sessionChat : Nat → List Message → Except String String)
    (now : Nat) (registry : Registry)
    (sessionId : Option String) (messages : Option (List Message)) :
    ChatHandlerResult × Registry :=
  if ¬ aiModelOk then (.aiNotConfigured, registry)
  else match messages with
  | none => (.badMessages, registry)
  | some ms =>
    if ms.isEmpty then (.badMessages, registry)
    else match sessionId with
    | none => directChatPath direct registry ms
    | some sid =>
      match rGet registry sid with
      | none => directChatPath direct registry ms
      | some conn =>
        let registry1 := rSet registry sid { conn with lastActivityTimestamp := now }
        match sessionChat conn.clientId ms with
        | Except.ok r => (.sessionOk r, registry1)
        | Except.error e => (.sessionError e, registry1)

/-! ## The streaming chat orchestration loop (`src/mcp/src/client.ts`)

`streamText(...).fullStream` is modelled as the list of parts the model
produces for the given transcript (`ModelFn`); only the two part kinds the
loop inspects (`text-delta`, `tool-call`) are represented.  The tool gateway
`mcpClient.callTool` is modelled as `GatewayFn` (`Except.error` covers both a
thrown call and a missing `data`).  The `while (true)` loop is embedded with
explicit fuel; exhausting the fuel yields the `fuelOut` outcome, which has no
counterpart in the source (the source loop has no round cap). -/

/-- One event of `streamText(...).fullStream` as consumed by the loop. -/
inductive StreamPart where
  | textDelta (t : String)
  | toolCall (c : ToolCallPart)
deriving DecidableEq, Repr

/-- The model capability: a pure function from the current transcript to the
parts it streams back. -/
abbrev ModelFn := List Message → List StreamPart

/-- The tool execution gateway: outcome of `mcpClient.callTool` on one call
(`Except.ok` carries `data.content`, `Except.error` the stringified error). -/
abbrev GatewayFn := ToolCallPart → Except String String

/-- The for-await over `fullStream`, restricted to its accumulation effect:
concatenation of the text deltas (`capturedText`) and the tool calls pushed
to `toolCallsToExecute`, in stream order. -/
def collectParts : List StreamPart → String × List ToolCallPart
  | [] => ("", [])
  | StreamPart.textDelta t :: rest =>
    let r := collectParts rest
    (t ++ r.1, r.2)
  | StreamPart.toolCall c :: rest =>
    let r := collectParts rest
    (r.1, c :: r.2)

/-- The chunks the for-await enqueues on the caller's stream: each text delta
verbatim, and an announcement line for each tool call. -/
def roundChunks : List StreamPart → List String
  | [] => []
  | StreamPart.textDelta t :: rest => t :: roundChunks rest
  | StreamPart.toolCall c :: rest =>
    ("**Calling Tool: " ++ c.toolName ++ "(" ++ c.args ++ ")**\n\n") ::
      roundChunks rest

/-- Models JavaScript `String.prototype.trim` (as called on `capturedText`):
strip whitespace from both ends.  Defined over the character list so that the
kernel can evaluate it on concrete strings. -/
def jsTrim (s : String) : String :=
  ⟨((s.data.dropWhile Char.isWhitespace).reverse.dropWhile
      Char.isWhitespace).reverse⟩

/-- Execution of one collected tool call (`client.ts` lines 167-190): a
gateway failure (or missing data) becomes a result slot with
`result = "Error: ..."` and `isError = true`; a success carries
`data.content` with `isError = false`.  The slot always keeps the
originating `toolCallId` and `toolName`. -/
def execToolCall (gateway : GatewayFn) (tc : ToolCallPart) : ToolResultPart :=
  match gateway tc with
  | Except.error e => ⟨tc.toolCallId, tc.toolName, "Error: " ++ e, true⟩
  | Except.ok d => ⟨tc.toolCallId, tc.toolName, d, false⟩

/-- Assistant-turn content construction (`client.ts` lines 141-145): the
trimmed captured text if non-empty, followed by the tool calls in order. -/
def mkAssistantContent (captured : String) (toolCalls : List ToolCallPart) :
    List AssistantContent :=
  (if jsTrim captured = "" then []
   else [AssistantContent.text (jsTrim captured)]) ++
    toolCalls.map AssistantContent.toolCall

/-- Mirrors the guard of the `console.warn` at `client.ts` line 147
(`assistantTurnContent.length === 0`): the detectable empty-content anomaly
of a round. -/
def emptyContentWarning (model : ModelFn) (msgs : List Message) : Bool :=
  (mkAssistantContent (collectParts (model msgs)).1 (collectParts (model msgs)).2).isEmpty

/-- Outcome of the fuelled loop: `done` is the source's normal exit (no tool
call in the last round), `fuelOut` marks exhausted fuel (no source
counterpart).  Both carry the final `currentMessages` transcript and the
chunks enqueued on the caller's stream. -/
inductive ChatOutcome where
  | done (transcript : List Message) (output : List String)
  | fuelOut (transcript : List Message) (output : List String)
deriving DecidableEq, Repr

/-- Final transcript of an outcome. -/
def ChatOutcome.transcript : ChatOutcome → List Message
  | .done t _ => t
  | .fuelOut t _ => t

/-- Whether the loop exited normally (zero tool calls in a round). -/
def ChatOutcome.isDone : ChatOutcome → Bool
  | .done _ _ => true
  | .fuelOut _ _ => false

/-- Prepends a round's enqueued chunks to an outcome's output. -/
def prependOutput (chunk : List String) : ChatOutcome → ChatOutcome
  | .done t o => .done t (chunk ++ o)
  | .fuelOut t o => .fuelOut t (chunk ++ o)

/-- The `while (true)` loop of `MCPClient.chat` (`client.ts` lines 108-200),
with explicit fuel.  Each iteration: stream the model on `currentMessages`,
collect text and tool calls, push the assistant turn (unconditionally — the
push at line 151 is outside any guard), exit if the turn had no tool call,
otherwise execute every tool call through the gateway, push the tool-result
turn, and iterate. -/
def chatLoop (model : ModelFn) (gateway : GatewayFn) :
    Nat → List Message → ChatOutcome
  | 0, msgs => .fuelOut msgs []
  | fuel+1, msgs =>
    let parts := model msgs
    let captured := (collectParts parts).1
    let toolCalls := (collectParts parts).2
    let content := mkAssistantContent captured toolCalls
    let msgs1 := msgs ++ [Message.assistant content]
    if toolCalls.isEmpty then
      .done msgs1 (roundChunks parts)
    else
      let results := toolCalls.map (execToolCall gateway)
      prependOutput (roundChunks parts)
        (chatLoop model gateway fuel (msgs1 ++ [Message.tool results]))

/-- Tool calls the model produces for a given transcript. -/
def roundToolCalls (model : ModelFn) (msgs : List Message) : List ToolCallPart :=
  (collectParts (model msgs)).2

/-- Captured text the model produces for a given transcript. -/
def roundText (model : ModelFn) (msgs : List Message) : String :=
  (collectParts (model msgs)).1

/-- Transcript after one non-terminating round: the assistant turn followed
by the tool-result turn built from the gateway outcomes. -/
def continueRound (model : ModelFn) (gateway : GatewayFn)
    (msgs : List Message) : List Message :=
  (msgs ++ [Message.assistant
      (mkAssistantContent (roundText model msgs) (roundToolCalls model msgs))]) ++
    [Message.tool ((roundToolCalls model msgs).map (execToolCall gateway))]

/-- Tool-call requests contained in an assistant turn's content, in order. -/
def toolCallsOfContent (c : List AssistantContent) : List ToolCallPart :=
  c.filterMap (fun x => match x with
    | AssistantContent.toolCall tc => some tc
    | _ => none)

/-- Adjacency condition of the round-trip invariant: a tool-result turn may
only follow an assistant turn, and must carry exactly one result per
tool-call request of that turn, with identifiers in the same order. -/
def pairOk (m1 m2 : Message) : Bool :=
  match m2 with
  | Message.tool res =>
    match m1 with
    | Message.assistant c =>
      res.length == (toolCallsOfContent c).length &&
        res.map ToolResultPart.toolCallId ==
          (toolCallsOfContent c).map ToolCallPart.toolCallId
    | _ => false
  | _ => true

/-- The round-trip invariant over a whole transcript: every adjacent pair of
turns satisfies `pairOk`. -/
def toolTurnsOk : List Message → Bool
  | m1 :: m2 :: rest => pairOk m1 m2 && toolTurnsOk (m2 :: rest)
  | _ => true

/-! ## The `MCPClient` chat entry points -/

/-- Client-side state relevant to the `chat` guard: whether `this.client` is
non-null (`start` succeeded and `cleanup` has not run). -/
structure MCPClientState where
  connected : Bool
deriving DecidableEq, Repr

/-- Result of the streaming `MCPClient.chat`: either the early
`ReadableStream` that errors with the not-connected message
(`client.ts` lines 89-96), or the stream driven by the loop. -/
inductive StreamChatResult where
  | notConnectedError (msg : String)
  | completed (transcript : List Message) (output : List String)
  | outOfFuel (transcript : List Message) (output : List String)
deriving DecidableEq, Repr

/-- The streaming `MCPClient.chat` (`src/mcp/src/client.ts`): guard on
`this.client`, then the orchestration loop. -/
def mcpChatStream (st : MCPClientState) (model : ModelFn) (gateway : GatewayFn)
    (fuel : Nat) (messages : List Message) : StreamChatResult :=
  if ¬ st.connected then .notConnectedError "Error: MCP Client not connected"
  else match chatLoop model gateway fuel messages with
  | ChatOutcome.done t o => .completed t o
  | ChatOutcome.fuelOut t o => .outOfFuel t o

/-- One content item of a `generateText` response message, as inspected by
the non-streaming `MCPClient.chat` variant. -/
inductive GenContent where
  | text (t : String)
  | reasoning (t : String)
  | toolCall (c : ToolCallPart)
deriving DecidableEq, Repr

/-- A `generateText` result as consumed by the non-streaming variant:
`response.messages` (each message reduced to its content list) and the
top-level `text`. -/
structure GenResponse where
  messages : List (List GenContent)
  text : String
deriving DecidableEq, Repr

/-- The `generateModelResponse` capability of the non-streaming variant:
`none` models a caught `generateText` error.  The `Bool` records whether the
MCP tool set was passed (`true` for the main call, `false` for the
follow-up call on tool results). -/
abbrev GenFn := Bool → List Message → Option GenResponse

/-- The inner content walk of the non-streaming `MCPClient.chat`: text and
reasoning items are appended to `finalText`; a tool-call item is executed
inline — on failure an error line is appended and the walk continues, on
success an announcement line, then the text of a follow-up model call on
`messages` extended with the tool result. -/
def processContent (gen : GenFn) (callTool : GatewayFn)
    (messages : List Message) : List GenContent → List String
  | [] => []
  | GenContent.text t :: rest => t :: processContent gen callTool messages rest
  | GenContent.reasoning t :: rest =>
    t :: processContent gen callTool messages rest
  | GenContent.toolCall c :: rest =>
    match callTool c with
    | Except.error e =>
      ("Error calling tool: " ++ c.toolName ++ " " ++ c.args ++ ": " ++ e) ::
        processContent gen callTool messages rest
    | Except.ok payload =>
      ("[Calling tool " ++ c.toolName ++ " with args " ++ c.args ++ "]") ::
        ((match gen false (messages ++ [Message.user payload]) with
          | some fr => [fr.text]
          | none => []) ++ processContent gen callTool messages rest)

/-- The non-streaming `MCPClient.chat` variant: guard on `this.client`, one
`generateText` call, then the content walk, joined with blank lines. -/
def chatOnce (st : MCPClientState) (gen : GenFn) (callTool : GatewayFn)
    (messages : List Message) : String :=
  if ¬ st.connected then "Error: MCP Client not connected"
  else match gen true messages with
  | none => "Error generating response from AI"
  | some response =>
    String.intercalate "\n\n"
      ((response.messages.map (processContent gen callTool messages)).flatten)

/-! ## Sample capabilities and states for concrete runs -/

/-- A model that always answers the plain text "Hello". -/
def modelHello : ModelFn := fun _ => [StreamPart.textDelta "Hello"]

/-- A model that streams nothing at all. -/
def modelSilent : ModelFn := fun _ => []

/-- A model that requests the tool call `c1` until the transcript contains a
tool-result turn, then answers "Done". -/
def modelOneTool : ModelFn := fun msgs =>
  if msgs.any (fun m => match m with
      | Message.tool _ => true
      | _ => false) then
    [StreamPart.textDelta "Done"]
  else
    [StreamPart.toolCall ⟨"c1", "search", "q"⟩]

/-- A gateway on which every tool call succeeds. -/
def gatewayOk : GatewayFn := fun _ => Except.ok "ok"

/-- A gateway on which every tool call fails. -/
def gatewayFail : GatewayFn := fun _ => Except.error "boom"

/-- A registry holding `MAX_CONNECTIONS` sessions. -/
def fullRegistry : Registry :=
  (List.range MAX_CONNECTIONS).map
    (fun i => (Nat.repr i, ⟨"github", i, 0⟩))

/-! ## Registry lemmas -/

lemma rGet_append_single (r : Registry) (k : String) (v : ActiveConnection)
    (h : rGet r k = none) : rGet (r ++ [(k, v)]) k = some v := by
  induction r with
  | nil => simp [rGet, List.lookup]
  | cons p tl ih =>
    obtain ⟨a, b⟩ := p
    simp only [rGet, List.cons_append, List.lookup] at h ⊢
    cases hk : (k == a) with
    | true =>
      rw [hk] at h
      exact absurd h (by simp)
    | false =>
      rw [hk] at h
      exact ih h

lemma rGet_rDelete_self (r : Registry) (k : String) :
    rGet (rDelete r k) k = none := by
  induction r with
  | nil => rfl
  | cons p tl ih =>
    obtain ⟨a, b⟩ := p
    by_cases hk : a = k
    · subst hk
      simpa [rDelete, List.filter] using ih
    · have hk' : (a != k) = true := by simp [hk]
      simp only [rDelete, List.filter, hk'] at ih ⊢
      simp only [rGet, List.lookup]
      have hke : (k == a) = false := by simp [Ne.symm hk]
      rw [hke]
      exact ih

lemma rSet_not_has (r : Registry) (k : String) (v : ActiveConnection)
    (h : rHas r k = false) : rSet r k v = r ++ [(k, v)] := by
  simp [rSet, h]

/-! ## Chat loop lemmas -/

lemma chatLoop_succ (model : ModelFn) (gw : GatewayFn) (fuel : Nat)
    (msgs : List Message) :
    chatLoop model gw (fuel+1) msgs =
      if (roundToolCalls model msgs).isEmpty then
        ChatOutcome.done
          (msgs ++ [Message.assistant
            (mkAssistantContent (roundText model msgs)
              (roundToolCalls model msgs))])
          (roundChunks (model msgs))
      else
        prependOutput (roundChunks (model msgs))
          (chatLoop model gw fuel (continueRound model gw msgs)) := rfl

lemma transcript_prependOutput (ch : List String) (o : ChatOutcome) :
    (prependOutput ch o).transcript = o.transcript := by
  cases o <;> rfl

lemma isDone_prependOutput (ch : List String) (o : ChatOutcome) :
    (prependOutput ch o).isDone = o.isDone := by
  cases o <;> rfl

lemma execToolCall_toolCallId (gw : GatewayFn) (tc : ToolCallPart) :
    (execToolCall gw tc).toolCallId = tc.toolCallId := by
  cases h : gw tc <;> simp [execToolCall, h]

lemma toolCallsOfContent_mk (s : String) (cs : List ToolCallPart) :
    toolCallsOfContent (mkAssistantContent s cs) = cs := by
  have hmap : toolCallsOfContent (cs.map AssistantContent.toolCall) = cs := by
    induction cs with
    | nil => rfl
    | cons c tl ih =>
      simp [toolCallsOfContent, List.filterMap_cons] at ih ⊢
      exact ih
  by_cases h : jsTrim s = "" <;>
    simp [mkAssistantContent, toolCallsOfContent, List.filterMap_append, h] <;>
    simpa [toolCallsOfContent] using hmap

lemma pairOk_mk (gw : GatewayFn) (s : String) (cs : List ToolCallPart) :
    pairOk (Message.assistant (mkAssistantContent s cs))
      (Message.tool (cs.map (execToolCall gw))) = true := by
  simp [pairOk, toolCallsOfContent_mk, List.map_map]
  intro tc _
  exact execToolCall_toolCallId gw tc

lemma pairOk_not_tool (m1 m2 : Message) (h : ∀ res, m2 ≠ Message.tool res) :
    pairOk m1 m2 = true := by
  cases m2 with
  | tool res => exact absurd rfl (h res)
  | user t => rfl
  | assistant c => rfl

lemma toolTurnsOk_append (l1 l2 : List Message)
    (h1 : toolTurnsOk l1 = true) (h2 : toolTurnsOk l2 = true)
    (hj : ∀ m, l2.head? = some m → ∀ res, m ≠ Message.tool res) :
    toolTurnsOk (l1 ++ l2) = true := by
  induction l1 with
  | nil => simpa using h2
  | cons x tl ih =>
    cases tl with
    | nil =>
      cases l2 with
      | nil => rfl
      | cons y tl2 =>
        have hp : pairOk x y = true := pairOk_not_tool x y (hj y rfl)
        simp only [List.singleton_append, toolTurnsOk, Bool.and_eq_true]
        exact ⟨hp, h2⟩
    | cons y tl' =>
      simp only [toolTurnsOk, Bool.and_eq_true] at h1
      simp only [List.cons_append, toolTurnsOk, Bool.and_eq_true]
      refine ⟨h1.1, ?_⟩
      have := ih h1.2
      simpa using this

lemma toolTurnsOk_continueRound (model : ModelFn) (gw : GatewayFn)
    (msgs : List Message) (h : toolTurnsOk msgs = true) :
    toolTurnsOk (continueRound model gw msgs) = true := by
  unfold continueRound
  rw [List.append_assoc]
  apply toolTurnsOk_append _ _ h
  · simp only [List.singleton_append, toolTurnsOk, Bool.and_eq_true]
    exact ⟨pairOk_mk gw _ _, trivial⟩
  · intro m hm res hcontra
    simp at hm
    subst hcontra
    cases hm

lemma chatLoop_done_of_quiescent (model : ModelFn) (gw : GatewayFn) :
    ∀ (n : Nat) (msgs : List Message),
      roundToolCalls model ((continueRound model gw)^[n] msgs) = [] →
      (chatLoop model gw (n+1) msgs).isDone = true := by
  intro n
  induction n with
  | zero =>
    intro msgs h
    rw [chatLoop_succ]
    simp only [Function.iterate_zero, id] at h
    simp [h, ChatOutcome.isDone]
  | succ n ih =>
    intro msgs h
    rw [chatLoop_succ]
    by_cases hq : (roundToolCalls model msgs).isEmpty
    · simp [hq, ChatOutcome.isDone]
    · rw [if_neg (by simp [hq]), isDone_prependOutput]
      apply ih
      rw [Function.iterate_succ_apply] at h
      exact h

lemma quiescent_of_chatLoop_done (model : ModelFn) (gw : GatewayFn) :
    ∀ (fuel : Nat) (msgs : List Message),
      (chatLoop model gw fuel msgs).isDone = true →
      ∃ n, roundToolCalls model ((continueRound model gw)^[n] msgs) = [] := by
  intro fuel
  induction fuel with
  | zero =>
    intro msgs h
    exact absurd h (by simp [chatLoop, ChatOutcome.isDone])
  | succ fuel ih =>
    intro msgs h
    rw [chatLoop_succ] at h
    by_cases hq : (roundToolCalls model msgs).isEmpty
    · exact ⟨0, by simpa [List.isEmpty_iff] using hq⟩
    · rw [if_neg (by simp [hq]), isDone_prependOutput] at h
      obtain ⟨n, hn⟩ := ih _ h
      exact ⟨n+1, by rw [Function.iterate_succ_apply]; exact hn⟩

/-! ## Claim theorems -/

/-- Claim C1 (code bug): on a `connect` for a session key already registered
on a *different* backend, the handler is claimed (and the dead code at lines
118-137 intends) to tear down the old connection and replace the entry; in
fact the early `activeConnections.has(sessionId)` return at lines 95-101
answers "Already connected" first, so for the session `"s"` on `"github"`
asked to connect to `"supabase"` nothing is cleaned up and the registry still
maps `"s"` to the old `"github"` connection. -/
theorem connect_backend_switch_unreachable :
    connectHandler true true true 8 5 [("s", ⟨"github", 7, 0⟩)]
      (some "s") (some "supabase") =
      ⟨ConnectResult.alreadyConnected, [("s", ⟨"github", 7, 0⟩)], []⟩ := rfl

/-- Claim C6: a `connect` with a key not in the registry, while the registry
holds `MAX_CONNECTIONS = 10` sessions, is rejected with the capacity error
and leaves the registry unchanged; the outcome is the same for every
`startOk`/`newClientId` (no connection resources are allocated) and nothing
is cleaned up. -/
theorem connect_capacity_rejected (aiModelOk startOk oldCleanupOk : Bool)
    (newClientId now : Nat) (registry : Registry) (sid srv : String)
    (hsid : sid ≠ "") (hsrv : srv ∈ AVAILABLE_MCP_SERVERS)
    (hnew : rGet registry sid = none)
    (hfull : rSize registry = MAX_CONNECTIONS) :
    connectHandler aiModelOk startOk oldCleanupOk newClientId now registry
      (some sid) (some srv) = ⟨ConnectResult.capacity, registry, []⟩ := by
  have hsrv' : srv = "github" ∨ srv = "supabase" := by
    simpa [AVAILABLE_MCP_SERVERS] using hsrv
  unfold connectHandler
  rcases hsrv' with h | h <;> subst h <;>
    simp [hsid, rHas, hnew, AVAILABLE_MCP_SERVERS, hfull]

/-- Witness for C6 at a concrete full registry. -/
theorem connect_capacity_rejected_witness :
    ("newkey" : String) ≠ "" ∧
    "github" ∈ AVAILABLE_MCP_SERVERS ∧
    rGet fullRegistry "newkey" = none ∧
    rSize fullRegistry = MAX_CONNECTIONS ∧
    connectHandler true true true 99 42 fullRegistry
      (some "newkey") (some "github") =
      ⟨ConnectResult.capacity, fullRegistry, []⟩ :=
  ⟨by decide, by decide, by decide, by decide,
    connect_capacity_rejected true true true 99 42 fullRegistry "newkey"
      "github" (by decide) (by decide) (by decide) (by decide)⟩

/-- Claim C7 as amended: connecting twice in a row with the same key and
backend succeeds both times (success, then the 200 "Already connected"
answer), leaves exactly one registered session, and the second call neither
re-creates the connection nor cleans anything up — the registry entry,
including `clientId` and `lastActivityTimestamp`, is byte-for-byte the one
the first call stored (so the timestamp is *not* refreshed; the refresh the
spec promises is not performed by the code). -/
theorem connect_twice_idempotent (r : Registry) (sid srv : String)
    (cid1 cid2 now1 now2 : Nat) (ai2 start2 cu2 : Bool)
    (hsid : sid ≠ "") (hsrv : srv ∈ AVAILABLE_MCP_SERVERS)
    (hnew : rGet r sid = none) (hcap : rSize r < MAX_CONNECTIONS) :
    connectHandler true true true cid1 now1 r (some sid) (some srv) =
      ⟨ConnectResult.success, r ++ [(sid, ⟨srv, cid1, now1⟩)], []⟩ ∧
    connectHandler ai2 start2 cu2 cid2 now2 (r ++ [(sid, ⟨srv, cid1, now1⟩)])
      (some sid) (some srv) =
      ⟨ConnectResult.alreadyConnected, r ++ [(sid, ⟨srv, cid1, now1⟩)], []⟩ := by
  have hsrv' : srv = "github" ∨ srv = "supabase" := by
    simpa [AVAILABLE_MCP_SERVERS] using hsrv
  have hhas2 : rHas (r ++ [(sid, ⟨srv, cid1, now1⟩)]) sid = true := by
    simp [rHas, rGet_append_single r sid _ hnew]
  constructor
  · rcases hsrv' with h | h <;> subst h <;>
      · unfold connectHandler
        simp [hsid, rHas, hnew, AVAILABLE_MCP_SERVERS, Nat.not_le.mpr hcap,
          connectStart, rSet_not_has, rHas]
  · rcases hsrv' with h | h <;> subst h <;>
      · unfold connectHandler
        simp [hsid, AVAILABLE_MCP_SERVERS, hhas2]

/-- Witness for the amended C7 at concrete inputs. -/
theorem connect_twice_idempotent_witness :
    ("s" : String) ≠ "" ∧
    "github" ∈ AVAILABLE_MCP_SERVERS ∧
    rGet ([] : Registry) "s" = none ∧
    rSize ([] : Registry) < MAX_CONNECTIONS ∧
    (connectHandler true true true 1 5 [] (some "s") (some "github") =
      ⟨ConnectResult.success, [("s", ⟨"github", 1, 5⟩)], []⟩ ∧
    connectHandler true true true 2 9 [("s", ⟨"github", 1, 5⟩)]
      (some "s") (some "github") =
      ⟨ConnectResult.alreadyConnected, [("s", ⟨"github", 1, 5⟩)], []⟩) :=
  ⟨by decide, by decide, rfl, by decide,
    connect_twice_idempotent [] "s" "github" 1 2 5 9 true true true
      (by decide) (by decide) rfl (by decide)⟩

/-- Counterexample to C7 as stated: connecting at time 5 and again at time 9
with the same key and backend leaves the stored activity timestamp at 5 —
the second call does not refresh it. -/
theorem connect_repeat_timestamp_not_refreshed :
    (connectHandler true true true 2 9
      (connectHandler true true true 1 5 [] (some "s")
        (some "github")).registry
      (some "s") (some "github")).registry =
      [("s", ⟨"github", 1, 5⟩)] ∧ (5 : Nat) ≠ 9 :=
  ⟨rfl, by decide⟩

/-- Claim C8: `disconnect` is idempotent — after any call the key is absent
from the registry; an unknown key is a 200 no-op leaving the registry
untouched; a registered key has its client cleaned up and its entry removed
whether or not the cleanup succeeds (`cleanupOk` is arbitrary). -/
theorem disconnect_idempotent_removes (cleanupOk : Bool) (r : Registry)
    (sid : String) (hsid : sid ≠ "") :
    rGet (disconnectHandler cleanupOk r (some sid)).registry sid = none ∧
    (rGet r sid = none →
      disconnectHandler cleanupOk r (some sid) =
        ⟨DisconnectResult.notFoundOk, r, []⟩) ∧
    (∀ conn, rGet r sid = some conn →
      (disconnectHandler cleanupOk r (some sid)).registry = rDelete r sid ∧
      (disconnectHandler cleanupOk r (some sid)).cleanedUp =
        [conn.clientId]) := by
  unfold disconnectHandler
  cases hget : rGet r sid with
  | none => simp [hsid, hget]
  | some conn =>
    cases cleanupOk <;> simp [hsid, hget, rGet_rDelete_self]

/-- Witness for C8 at a concrete registry and a failing cleanup. -/
theorem disconnect_idempotent_removes_witness :
    ("s" : String) ≠ "" ∧
    (rGet (disconnectHandler false [("s", ⟨"github", 7, 3⟩)]
        (some "s")).registry "s" = none ∧
    (rGet [("s", ⟨"github", 7, 3⟩)] "s" = none →
      disconnectHandler false [("s", ⟨"github", 7, 3⟩)] (some "s") =
        ⟨DisconnectResult.notFoundOk, [("s", ⟨"github", 7, 3⟩)], []⟩) ∧
    (∀ conn, rGet [("s", ⟨"github", 7, 3⟩)] "s" = some conn →
      (disconnectHandler false [("s", ⟨"github", 7, 3⟩)]
          (some "s")).registry = rDelete [("s", ⟨"github", 7, 3⟩)] "s" ∧
      (disconnectHandler false [("s", ⟨"github", 7, 3⟩)]
          (some "s")).cleanedUp = [conn.clientId])) :=
  ⟨by decide, disconnect_idempotent_removes false [("s", ⟨"github", 7, 3⟩)]
    "s" (by decide)⟩

/-- Claim C9: a `chat` with a valid non-empty messages array and no session
for the key (unknown key, or no key) is routed to the direct-chat fallback
and answers 200 with the model's direct response; the session-chat
capability is never consulted (it is arbitrary) and the registry is
unchanged. -/
theorem chat_unknown_session_falls_back
    (direct : List Message → Except String String)
    (sessionChat : Nat → List Message → Except String String)
    (now : Nat) (r : Registry) (sessionId : Option String)
    (ms : List Message) (resp : String)
    (hms : ms ≠ [])
    (hsess : ∀ sid, sessionId = some sid → rGet r sid = none)
    (hdirect : direct ms = Except.ok resp) :
    chatHandler true direct sessionChat now r sessionId (some ms) =
      (ChatHandlerResult.directOk resp, r) := by
  have hempty : ms.isEmpty = false := by
    cases ms with
    | nil => exact absurd rfl hms
    | cons a tl => rfl
  unfold chatHandler
  cases sessionId with
  | none => simp [hempty, directChatPath, hdirect]
  | some sid => simp [hempty, hsess sid rfl, directChatPath, hdirect]

/-- Witness for C9 at a concrete empty registry and unknown key. -/
theorem chat_unknown_session_falls_back_witness :
    ([Message.user "hi"] : List Message) ≠ [] ∧
    rGet ([] : Registry) "s" = none ∧
    chatHandler true (fun _ => Except.ok "resp") (fun _ _ => Except.ok "x") 0
      [] (some "s") (some [Message.user "hi"]) =
      (ChatHandlerResult.directOk "resp", ([] : Registry)) :=
  ⟨by simp, rfl,
    chat_unknown_session_falls_back (fun _ => Except.ok "resp")
      (fun _ _ => Except.ok "x") 0 [] (some "s") [Message.user "hi"] "resp"
      (by simp) (fun sid h => by cases h; rfl) rfl⟩

/-- Claim C10: calling `MCPClient.chat` while the underlying client is not
connected short-circuits: the streaming variant returns the stream that
errors with "Error: MCP Client not connected" and the non-streaming variant
returns that string; the model capabilities (`model`, `gen`) are arbitrary
and never invoked, and no state is produced or changed. -/
theorem mcp_chat_not_connected (st : MCPClientState)
    (model : ModelFn) (gateway : GatewayFn) (fuel : Nat)
    (messages : List Message) (gen : GenFn) (callTool : GatewayFn)
    (messages2 : List Message) (h : st.connected = false) :
    mcpChatStream st model gateway fuel messages =
      StreamChatResult.notConnectedError "Error: MCP Client not connected" ∧
    chatOnce st gen callTool messages2 = "Error: MCP Client not connected" := by
  constructor
  · simp [mcpChatStream, h]
  · simp [chatOnce, h]

/-- Witness for C10 on a disconnected client state. -/
theorem mcp_chat_not_connected_witness :
    (MCPClientState.mk false).connected = false ∧
    (mcpChatStream ⟨false⟩ modelHello gatewayOk 3 [Message.user "hi"] =
      StreamChatResult.notConnectedError "Error: MCP Client not connected" ∧
    chatOnce ⟨false⟩ (fun _ _ => none) gatewayOk [Message.user "hi"] =
      "Error: MCP Client not connected") :=
  ⟨rfl, mcp_chat_not_connected ⟨false⟩ modelHello gatewayOk 3
    [Message.user "hi"] (fun _ _ => none) gatewayOk [Message.user "hi"] rfl⟩

/-- Claim C4: the round-trip invariant `toolTurnsOk` — every tool-result
turn immediately follows an assistant turn and carries exactly one result
per tool-call request of that turn, same length, identifiers in the same
order — is preserved by the chat loop for every model, gateway, fuel and
initial transcript. -/
theorem chat_transcript_tool_turns_match (model : ModelFn) (gw : GatewayFn)
    (fuel : Nat) (msgs : List Message) (h : toolTurnsOk msgs = true) :
    toolTurnsOk ((chatLoop model gw fuel msgs).transcript) = true := by
  induction fuel generalizing msgs with
  | zero => simpa [chatLoop, ChatOutcome.transcript] using h
  | succ fuel ih =>
    rw [chatLoop_succ]
    by_cases hq : (roundToolCalls model msgs).isEmpty
    · simp only [hq, if_true]
      show toolTurnsOk (msgs ++ [Message.assistant _]) = true
      apply toolTurnsOk_append _ _ h
      · rfl
      · intro m hm res hcontra
        simp at hm
        subst hcontra
        cases hm
    · simp only [hq, if_false, Bool.false_eq_true, transcript_prependOutput]
      exact ih _ (toolTurnsOk_continueRound model gw msgs h)

/-- Witness for C4: a concrete two-round run (tool call, then "Done") whose
transcript satisfies the invariant. -/
theorem chat_transcript_tool_turns_match_witness :
    toolTurnsOk [Message.user "hi"] = true ∧
    toolTurnsOk ((chatLoop modelOneTool gatewayFail 5
      [Message.user "hi"]).transcript) = true :=
  ⟨rfl, chat_transcript_tool_turns_match modelOneTool gatewayFail 5
    [Message.user "hi"] rfl⟩

/-- Claim C3: the loop terminates normally within some finite fuel exactly
when the model (a pure function of the transcript) eventually produces a
round with zero tool-call requests along the execution trace; in particular
there is no maximum round count — if no round is ever quiescent, no amount
of fuel makes the loop terminate normally. -/
theorem chat_loop_terminates_iff_quiescent (model : ModelFn) (gw : GatewayFn)
    (msgs : List Message) :
    (∃ fuel, (chatLoop model gw fuel msgs).isDone = true) ↔
    (∃ n, roundToolCalls model ((continueRound model gw)^[n] msgs) = []) := by
  constructor
  · rintro ⟨fuel, h⟩
    exact quiescent_of_chatLoop_done model gw fuel msgs h
  · rintro ⟨n, h⟩
    exact ⟨n+1, chatLoop_done_of_quiescent model gw n msgs h⟩

/-- Witness for C3: the one-tool stub model is quiescent after one round, so
the loop terminates. -/
theorem chat_loop_terminates_witness :
    ∃ fuel, (chatLoop modelOneTool gatewayFail fuel
      [Message.user "hi"]).isDone = true :=
  (chat_loop_terminates_iff_quiescent modelOneTool gatewayFail
    [Message.user "hi"]).mpr ⟨1, rfl⟩

/-- Claim C2: tool execution failures are contained — the batch of results
keeps one slot per call, each slot keeps its originating call identifier, a
gateway failure yields `isError = true` with a non-empty error summary in
that slot, and a round that had tool calls always proceeds to the next round
(for *every* gateway, including an all-failing one), never aborting the
loop. -/
theorem tool_failure_contained (model : ModelFn) (gateway : GatewayFn)
    (calls : List ToolCallPart) (msgs : List Message) (fuel : Nat) :
    (calls.map (execToolCall gateway)).length = calls.length ∧
    (∀ tc ∈ calls, (execToolCall gateway tc).toolCallId = tc.toolCallId) ∧
    (∀ tc ∈ calls, ∀ e, gateway tc = Except.error e →
      (execToolCall gateway tc).isError = true ∧
      (execToolCall gateway tc).result ≠ "") ∧
    ((roundToolCalls model msgs).isEmpty = false →
      chatLoop model gateway (fuel+1) msgs =
        prependOutput (roundChunks (model msgs))
          (chatLoop model gateway fuel (continueRound model gateway msgs))) := by
  refine ⟨List.length_map _ _, fun tc _ => execToolCall_toolCallId gateway tc,
    ?_, ?_⟩
  · intro tc _ e he
    constructor
    · simp [execToolCall, he]
    · show (execToolCall gateway tc).result ≠ ""
      simp only [execToolCall, he]
      intro hcontra
      have hlen := congrArg String.length hcontra
      rw [String.length_append] at hlen
      have h7 : ("Error: " : String).length = 7 := rfl
      have h0 : ("" : String).length = 0 := rfl
      omega
  · intro hne
    rw [chatLoop_succ, if_neg (by simp [hne])]

/-- Witness for C2: the failing gateway on the call `c1` produces the
error slot and the loop still advances into the next round. -/
theorem tool_failure_contained_witness :
    gatewayFail ⟨"c1", "search", "q"⟩ = Except.error "boom" ∧
    (roundToolCalls modelOneTool [Message.user "hi"]).isEmpty = false ∧
    ((execToolCall gatewayFail ⟨"c1", "search", "q"⟩).isError = true ∧
      (execToolCall gatewayFail ⟨"c1", "search", "q"⟩).result ≠ "") ∧
    chatLoop modelOneTool gatewayFail 2 [Message.user "hi"] =
      prependOutput (roundChunks (modelOneTool [Message.user "hi"]))
        (chatLoop modelOneTool gatewayFail 1
          (continueRound modelOneTool gatewayFail [Message.user "hi"])) :=
  ⟨rfl, rfl,
    (tool_failure_contained modelOneTool gatewayFail [⟨"c1", "search", "q"⟩]
      [Message.user "hi"] 1).2.2.1 ⟨"c1", "search", "q"⟩ (by simp)
      "boom" rfl,
    (tool_failure_contained modelOneTool gatewayFail [⟨"c1", "search", "q"⟩]
      [Message.user "hi"] 1).2.2.2 rfl⟩

/-- Counterexample to C5 as stated: a round with zero tool calls and empty
trimmed text still appends the assistant turn — the push at `client.ts`
line 151 is unconditional — so the final transcript is not the unchanged
input transcript but gains `Message.assistant []`. -/
theorem empty_assistant_turn_still_appended :
    (chatLoop modelSilent gatewayOk 1 [Message.user "hi"]).transcript =
      [Message.user "hi", Message.assistant []] ∧
    ([Message.user "hi", Message.assistant []] : List Message) ≠
      [Message.user "hi"] :=
  ⟨rfl, by decide⟩

/-- Claim C5 as amended: in a round with zero tool-call requests and empty
trimmed text the loop terminates normally (not a failure), appends the
assistant turn with *empty* content, and the empty content is surfaced as a
detectable anomaly — the `console.warn` guard (`emptyContentWarning`)
evaluates to true. -/
theorem empty_round_appends_and_warns (model : ModelFn) (gw : GatewayFn)
    (msgs : List Message) (fuel : Nat)
    (hcalls : roundToolCalls model msgs = [])
    (htext : jsTrim (roundText model msgs) = "") :
    chatLoop model gw (fuel+1) msgs =
      ChatOutcome.done (msgs ++ [Message.assistant []])
        (roundChunks (model msgs)) ∧
    emptyContentWarning model msgs = true := by
  have hcontent : mkAssistantContent (roundText model msgs)
      (roundToolCalls model msgs) = [] := by
    simp [mkAssistantContent, htext, hcalls]
  constructor
  · rw [chatLoop_succ, if_pos (by simp [hcalls]), hcontent]
  · show (mkAssistantContent (roundText model msgs)
      (roundToolCalls model msgs)).isEmpty = true
    rw [hcontent]
    rfl

/-- Witness for the amended C5 on the silent model. -/
theorem empty_round_appends_and_warns_witness :
    roundToolCalls modelSilent [Message.user "hi"] = [] ∧
    jsTrim (roundText modelSilent [Message.user "hi"]) = "" ∧
    (chatLoop modelSilent gatewayOk (0+1) [Message.user "hi"] =
      ChatOutcome.done ([Message.user "hi"] ++ [Message.assistant []])
        (roundChunks (modelSilent [Message.user "hi"])) ∧
    emptyContentWarning modelSilent [Message.user "hi"] = true) :=
  ⟨rfl, rfl, empty_round_appends_and_warns modelSilent gatewayOk
    [Message.user "hi"] 0 rfl rfl⟩

end MCPService
